import Mathlib

/-!
Verification of the scan-and-snapshot engine of the networksecuritybackend
repository against its specification.

The Python sources are shallowly embedded:
* the persistent store (`ip_open_ports` table) is a list of rows; the SQL
  statements issued by `save_open_ports_to_db` become pure functions on it;
* the nmap probing capability is an oracle value (`Except` for calls that may
  raise), so every control path of the adapters is a `match`;
* machine behaviour that matters (Python `int()` parsing, dict truthiness,
  the unique-key constraint of the table) is modelled explicitly.
-/

namespace NetSec

/-- A point in time, split into the calendar day (what `timestamp::date`
extracts in the SQL delete) and the time of day.  `datetime.now()` values of
distinct calls are distinct, which theorems state as freshness hypotheses. -/
structure Timestamp where
  day : Nat
  tod : Nat
deriving DecidableEq, Repr

/-- One open-port observation as built by the shared_utils normalizers:
the Python dict `{'port': int(...), 'protocol': ..., 'service': ...}`. -/
structure PortObs where
  port : Int
  protocol : String
  service : String
deriving DecidableEq, Repr

/-- A persisted row of the `ip_open_ports` table. -/
structure Row where
  ip_address : String
  identity_key : String
  protocol : String
  port : Int
  service : String
  timestamp : Timestamp
deriving DecidableEq, Repr

/-- The uniqueness key of the table, from `create_ip_open_ports_table`:
`UNIQUE (ip_address, port, protocol, timestamp)`. -/
def rowKey (r : Row) : String × Int × String × Timestamp :=
  (r.ip_address, r.port, r.protocol, r.timestamp)

/-- The batch insert succeeds iff no two inserted rows share the uniqueness
key and no inserted row collides with a stored row on it. -/
abbrev insertCond (store records : List Row) : Prop :=
  (records.map rowKey).Nodup ∧ ∀ r ∈ records, ∀ s ∈ store, rowKey r ≠ rowKey s

/-- `INSERT_OPEN_PORTS_QUERY` executed by `execute_values`: a plain
`INSERT INTO ip_open_ports ... VALUES %s` with no `ON CONFLICT` clause, so a
collision with the table's unique constraint raises instead of updating. -/
def insertBatch (store records : List Row) : Except String (List Row) :=
  if insertCond store records then .ok (store ++ records)
  else .error "duplicate key value violates unique constraint"

/-- The WHERE clause of the same-day delete in `save_open_ports_to_db`:
`ip_address = %s AND identity_key = %s AND timestamp::date = %s::date`. -/
def matchesDay (ip idk : String) (d : Nat) (r : Row) : Bool :=
  r.ip_address == ip && r.identity_key == idk && r.timestamp.day == d

/-- The record tuple appended for each port:
`(ip_address, identity_key, port['protocol'], int(port['port']), port['service'], scan_timestamp)`. -/
def mkRecord (ip idk : String) (ts : Timestamp) (o : PortObs) : Row :=
  { ip_address := ip, identity_key := idk, protocol := o.protocol,
    port := o.port, service := o.service, timestamp := ts }

/-- The `DELETE FROM ip_open_ports ...` step (run only when `clean_old`). -/
def cleanupSameDay (clean_old : Bool) (ip idk : String) (d : Nat)
    (store : List Row) : List Row :=
  if clean_old then store.filter (fun r => ! matchesDay ip idk d r) else store

/-- `save_open_ports_to_db(open_ports, identity_key, ip_address, conn, clean_old)`.

The store is passed and returned explicitly.  `open_ports` is `Option` to
cover Python `None` (both `None` and `[]` fail the `if not open_ports or
len(open_ports) == 0` guard and return 0 before any row is touched).
`dbErr` models the backend raising during the delete/insert round trip
(connection loss etc.); any exception inside the `try` is caught, the
transaction rolled back (the commit only happens after the insert, so the
delete is undone too) and 0 returned. -/
def save_open_ports_to_db (dbErr : Bool) (open_ports : Option (List PortObs))
    (identity_key ip_address : String) (store : List Row)
    (scan_timestamp : Timestamp) (clean_old : Bool := true) : Nat × List Row :=
  let ports := open_ports.getD []
  if ports.isEmpty then (0, store)
  else
    let cleaned := cleanupSameDay clean_old ip_address identity_key
      scan_timestamp.day store
    let records := ports.map (mkRecord ip_address identity_key scan_timestamp)
    if dbErr then (0, store)
    else
      match insertBatch cleaned records with
      | .ok s => (records.length, s)
      | .error _ => (0, store)

/-! ## shared_utils/scanning.py: the Probe Adapter -/

/-- A `<port>` element of the nmap XML report, with the attributes and child
elements `get_open_ports_from_xml` reads.  `service` is the optional
`<service>` child; its payload is the optional `name` attribute. -/
structure XmlPortEntry where
  portid : Option String
  protocol : Option String
  state : Option String
  service : Option (Option String)
deriving DecidableEq, Repr

/-- The XML report is modelled by its list of `<port>` elements (the only
children the parser visits, via `findall('.//port')`). -/
abbrev Xml := List XmlPortEntry

/-- ASCII whitespace stripped by Python `str.strip` before parsing. -/
def isSpaceChar (c : Char) : Bool :=
  c == ' ' || c == '\t' || c == '\n' || c == '\r' || c == '\x0b' || c == '\x0c'

/-- Decimal value of a digit run; `none` on the first non-digit. -/
def digitsVal : List Char → Nat → Option Nat
  | [], acc => some acc
  | c :: cs, acc =>
    if c.isDigit then digitsVal cs (acc * 10 + (c.toNat - 48)) else none

/-- A digit run must be non-empty. -/
def digitsRun (cs : List Char) : Option Nat :=
  match cs with
  | [] => none
  | _ => digitsVal cs 0

/-- Signed decimal over the stripped characters. -/
def pyIntChars : List Char → Option Int
  | [] => none
  | c :: cs =>
    if c == '-' then (digitsRun cs).map (fun n => -(n : Int))
    else if c == '+' then (digitsRun cs).map (fun n => (n : Int))
    else (digitsRun (c :: cs)).map (fun n => (n : Int))

/-- Leading and trailing whitespace removal. -/
def stripChars (cs : List Char) : List Char :=
  ((cs.dropWhile isSpaceChar).reverse.dropWhile isSpaceChar).reverse

/-- Python `int(s)` on a decimal string: surrounding whitespace is stripped,
an optional sign is allowed; `none` models the `ValueError` it raises.
(Digit-group underscores and non-ASCII digits are not modelled.) -/
def pyInt? (s : String) : Option Int :=
  pyIntChars (stripChars s.data)

/-- `int(port_elem.get('portid'))`: a missing attribute is `None`, and
`int(None)` raises just like an unparseable string does. -/
def xmlParsed? (e : XmlPortEntry) : Option Int :=
  match e.portid with
  | none => none
  | some s => pyInt? s

/-- Service lookup of the XML parser: `'unknown'` when the `<service>` child
is absent or has no `name` attribute. -/
def xmlServiceName (e : XmlPortEntry) : String :=
  match e.service with
  | none => "unknown"
  | some name? => name?.getD "unknown"

/-- The loop body of `get_open_ports_from_xml`.  The `try` wraps the whole
loop, so the first open entry whose port number fails `int()` aborts the
loop; the entries collected so far are returned (`open_ports` is still in
scope in the `except` handler's tail). -/
def xmlCollect : List XmlPortEntry → List PortObs → List PortObs
  | [], acc => acc
  | e :: rest, acc =>
    if e.state == some "open" then
      match xmlParsed? e with
      | none => acc
      | some p =>
        xmlCollect rest (acc ++ [⟨p, e.protocol.getD "tcp", xmlServiceName e⟩])
    else xmlCollect rest acc

/-- `get_open_ports_from_xml(xml_element, ip_address)`. -/
def get_open_ports_from_xml (x : Xml) (_ip_address : String) : List PortObs :=
  xmlCollect x []

/-- One element of `host_data['ports']` in the JSON (fallback) report. -/
structure JsonPortInfo where
  state : Option String
  portid : Option String
  protocol : Option String
  service : Option (Option String)
deriving DecidableEq, Repr

/-- One host of the JSON report; `ports = none` models a dict without the
`'ports'` key. -/
structure JsonHost where
  ports : Option (List JsonPortInfo)
deriving DecidableEq, Repr

/-- The dict returned by `scan_top_ports`, keyed by address. -/
abbrev JsonReport := List (String × JsonHost)

/-- `int(port_info.get('portid', 0))`: a missing key defaults to the integer
0 (so it parses), a present but malformed string raises. -/
def jsonParsed? (e : JsonPortInfo) : Option Int :=
  match e.portid with
  | none => some 0
  | some s => pyInt? s

/-- `port_info.get('service', {}).get('name', 'unknown')`. -/
def jsonServiceName (e : JsonPortInfo) : String :=
  match e.service with
  | none => "unknown"
  | some name? => name?.getD "unknown"

/-- The loop of `get_open_ports_from_json`; like the XML loop, the `try`
wraps it whole, so a raising entry ends collection with the rows so far. -/
def jsonCollect : List JsonPortInfo → List PortObs → List PortObs
  | [], acc => acc
  | e :: rest, acc =>
    if e.state == some "open" then
      match jsonParsed? e with
      | none => acc
      | some p =>
        jsonCollect rest (acc ++ [⟨p, e.protocol.getD "tcp", jsonServiceName e⟩])
    else jsonCollect rest acc

/-- `get_open_ports_from_json(json_data, ip_address)`. -/
def get_open_ports_from_json (json_data : JsonReport) (ip_address : String) :
    List PortObs :=
  match json_data.lookup ip_address with
  | none => []
  | some host =>
    match host.ports with
    | none => []
    | some ports => jsonCollect ports []

/-- The dict built by `scan_ports`; the absent `json_data` key of the
primary-success and failure dicts is `none`. -/
structure ScanResult where
  success : Bool
  ip_address : String
  xml_data : Option Xml
  json_data : Option JsonReport
  error : Option String
deriving DecidableEq, Repr

/-- The error message assembled when both strategies fail:
`f"Error scanning {ip}: Primary failed ({e}), Fallback failed ({fb})"`. -/
def bothFailedMsg (ip e fe : String) : String :=
  "Error scanning " ++ ip ++ ": Primary failed (" ++ e ++
    "), Fallback failed (" ++ fe ++ ")"

/-- The guard of the fallback branch: `if result and ip_address in result:`
then `if 'ports' in host_data:`.  Anything else raises
`"No data returned from fallback scan"` inside the same `try`. -/
def fallbackHasData (ip_address : String) (result : JsonReport) : Bool :=
  !result.isEmpty &&
    match result.lookup ip_address with
    | some host => host.ports.isSome
    | none => false

/-- The `except` branch of `scan_ports`: one `scan_top_ports` call, whose
outcome (`result` or a raise) is the `fallback` argument; `e` is the primary
failure's message. -/
def scanFallback (fallback : Except String JsonReport) (ip_address e : String) :
    ScanResult :=
  match fallback with
  | .ok result =>
    if fallbackHasData ip_address result then
      { success := true, ip_address := ip_address, xml_data := none,
        json_data := some result, error := none }
    else
      { success := false, ip_address := ip_address, xml_data := none,
        json_data := none,
        error := some (bothFailedMsg ip_address e
          "No data returned from fallback scan") }
  | .error fe =>
    { success := false, ip_address := ip_address, xml_data := none,
      json_data := none, error := some (bothFailedMsg ip_address e fe) }

/-- `shared_utils.scanning.scan_ports(ip_address, ...)`.  `primary` is the
outcome of `nm.scan_command` (which may raise, or return `None`, which the
function turns into its own raise); `fallback` that of `nm.scan_top_ports`. -/
def scan_ports (primary : Except String (Option Xml))
    (fallback : Except String JsonReport) (ip_address : String) : ScanResult :=
  match primary with
  | .ok (some xml) =>
    { success := true, ip_address := ip_address, xml_data := some xml,
      json_data := none, error := none }
  | .ok none => scanFallback fallback ip_address "No scan result returned from nmap"
  | .error e => scanFallback fallback ip_address e

/-- Truthiness of `scan_result.get('xml_data')`: an `ET.Element` is truthy
iff it has child elements; the children the pipeline cares about are the
`<port>` elements, and an element whose entry list is empty normalizes to
`[]` under both the truthy and the falsy branch, so the model tests the
entry list. -/
def xmlTruthy : Option Xml → Bool
  | none => false
  | some x => !x.isEmpty

/-- Truthiness of `scan_result.get('json_data')`: a dict is truthy iff
non-empty. -/
def jsonTruthy : Option JsonReport → Bool
  | none => false
  | some j => !j.isEmpty

/-- `get_open_ports_from_scan(scan_result, ip_address)`. -/
def get_open_ports_from_scan (sr : ScanResult) (ip_address : String) :
    List PortObs :=
  if !sr.success then []
  else if xmlTruthy sr.xml_data then
    get_open_ports_from_xml (sr.xml_data.getD []) ip_address
  else if jsonTruthy sr.json_data then
    get_open_ports_from_json (sr.json_data.getD []) ip_address
  else []

/-! ## ports_service/multithreaded_scanner.py: Worker Pool and Run Coordinator -/

/-- A scan target from `get_all_ip_addresses` (glossary: ScanTarget). -/
structure Target where
  ip_address : String
  identity_key : String
deriving DecidableEq, Repr

/-- The dict returned by `scan_single_ip_threaded` (glossary: ScanOutcome). -/
structure Outcome where
  ip_address : String
  identity_key : String
  open_ports : List PortObs
  ports_saved : Nat
  scan_success : Bool
  error : Option String
deriving DecidableEq, Repr

/-- The external world of one run: per-address probe outcomes, a per-address
database-failure oracle, and the `datetime.now()` value of the i-th save. -/
structure ScanEnv where
  primary : String → Except String (Option Xml)
  fallback : String → Except String JsonReport
  dbErr : String → Bool
  tsGen : Nat → Timestamp

/-- `multithreaded_scanner.scan_single_ip_threaded(ip_data, verbose)`:
probe via the shared adapter, then save immediately when ports were found.
The inner calls catch their own exceptions, so the function's own
`except` branch is unreachable in the model. -/
def scan_single_ip_threaded (env : ScanEnv) (t : Target) (store : List Row)
    (ts : Timestamp) : Outcome × List Row :=
  let sr := scan_ports (env.primary t.ip_address) (env.fallback t.ip_address)
    t.ip_address
  if !sr.success then
    ({ ip_address := t.ip_address, identity_key := t.identity_key,
       open_ports := [], ports_saved := 0, scan_success := false,
       error := sr.error }, store)
  else
    let open_ports := get_open_ports_from_scan sr t.ip_address
    if open_ports.isEmpty then
      ({ ip_address := t.ip_address, identity_key := t.identity_key,
         open_ports := open_ports, ports_saved := 0, scan_success := true,
         error := none }, store)
    else
      let saved := save_open_ports_to_db (env.dbErr t.ip_address)
        (some open_ports) t.identity_key t.ip_address store ts
      ({ ip_address := t.ip_address, identity_key := t.identity_key,
         open_ports := open_ports, ports_saved := saved.1, scan_success := true,
         error := none }, saved.2)

/-- Python list truncation `l[:n]` for an `int` argument: a non-negative
bound keeps the first `n` elements, a negative one drops the last `-n`. -/
def pyListTrunc (l : List α) (n : Int) : List α :=
  if 0 ≤ n then l.take n.toNat
  else l.take (l.length - (-n).toNat)

/-- The `if limit: ip_data_list = ip_data_list[:limit]` step: `None` and `0`
are falsy, so they leave the list whole. -/
def applyLimit (limit : Option Int) (l : List α) : List α :=
  match limit with
  | none => l
  | some n => if n = 0 then l else pyListTrunc l n

/-- The thread pool: every submitted target runs `scan_single_ip_threaded`
exactly once (one future each, drained by `as_completed`); the database
state is threaded through one interleaving of the per-host transactions. -/
def scanRun (env : ScanEnv) : List Target → List Row → Nat →
    List Outcome × List Row
  | [], store, _ => ([], store)
  | t :: rest, store, i =>
    let this := scan_single_ip_threaded env t store (env.tsGen i)
    let others := scanRun env rest this.2 (i + 1)
    (this.1 :: others.1, others.2)

/-- `scan_all_ips_multithreaded(limit, max_workers, verbose)`: empty target
list short-circuits (before the limit is applied); otherwise the truncated
list is submitted to the pool. -/
def scan_all_ips_multithreaded (env : ScanEnv) (limit : Option Int)
    (targets : List Target) (store : List Row) : List Outcome × List Row :=
  if targets.isEmpty then ([], store)
  else scanRun env (applyLimit limit targets) store 0

/-- `completed_scans`: outcomes appended under `if result['scan_success']`. -/
def completedScans (outcomes : List Outcome) : List Outcome :=
  outcomes.filter (fun o => o.scan_success)

/-- `failed_scans`: the outcomes of the `else` branch. -/
def failedScans (outcomes : List Outcome) : List Outcome :=
  outcomes.filter (fun o => !o.scan_success)

/-! ## ports_service/port_scanner.py: the divergent scanner variant -/

namespace PortScanner

/-- One element of `scan_results[ip]['ports']` as `port_scanner.py` reads it:
every field is read by direct indexing except `state` (also direct), so a
missing key raises `KeyError`. -/
structure PSPortInfo where
  state : Option String
  protocol : Option String
  portid : Option String
  service : Option (Option String)
deriving DecidableEq, Repr

/-- The dict built by `get_port_info`; the port number is kept as the raw
`portid` value, not parsed. -/
structure PSPortObs where
  protocol : String
  port : String
  service : String
deriving DecidableEq, Repr

/-- `get_port_info(port)`: direct indexing `port['protocol']`,
`port['portid']`, `port['service']['name']`; `none` models the `KeyError`. -/
def get_port_info (p : PSPortInfo) : Option PSPortObs :=
  match p.protocol, p.portid, p.service with
  | some pr, some pid, some (some n) => some ⟨pr, pid, n⟩
  | _, _, _ => none

/-- A host entry of the `scan_top_ports` result. -/
structure PSHost where
  ports : Option (List PSPortInfo)
deriving DecidableEq, Repr

abbrev PSReport := List (String × PSHost)

/-- The scan loop of `port_scanner.scan_ports`.  `none` models an exception
(`KeyError` on `port['state']` or inside `get_port_info`); unlike the
shared_utils loops, the enclosing `except` returns `[]`, discarding the
rows already collected. -/
def collectOpen : List PSPortInfo → List PSPortObs → Option (List PSPortObs)
  | [], acc => some acc
  | p :: rest, acc =>
    match p.state with
    | none => none
    | some st =>
      if st == "open" then
        match get_port_info p with
        | none => none
        | some obs => collectOpen rest (acc ++ [obs])
      else collectOpen rest acc

/-- `port_scanner.scan_ports(ip_address, verbose)`: every exception of the
probe call or the parsing is caught and `[]` returned. -/
def scan_ports (probe : Except String PSReport) (ip_address : String) :
    List PSPortObs :=
  match probe with
  | .error _ => []
  | .ok scan_results =>
    match scan_results.lookup ip_address with
    | none => []
    | some host =>
      match host.ports with
      | none => []
      | some ports => (collectOpen ports []).getD []

/-- The dict returned by `port_scanner.scan_single_ip_threaded` (the
`scan_time` float is not modelled). -/
structure PSOutcome where
  ip_address : String
  identity_key : String
  open_ports : List PSPortObs
  success : Bool
deriving DecidableEq, Repr

/-- `port_scanner.scan_single_ip_threaded(ip_data, verbose)`: scans and
returns with `'success': True` unconditionally. -/
def scan_single_ip_threaded (probe : Except String PSReport) (t : Target) :
    PSOutcome :=
  { ip_address := t.ip_address, identity_key := t.identity_key,
    open_ports := scan_ports probe t.ip_address, success := true }

end PortScanner

/-! ## Derived notions used in theorem statements -/

/-- The primary strategy failed: `scan_command` raised, or returned `None`
(which `scan_ports` converts into its own raise). -/
def primaryFails : Except String (Option Xml) → Bool
  | .ok (some _) => false
  | .ok none => true
  | .error _ => true

/-- The `str(e)` of the primary failure that is spliced into the combined
error message. -/
def primaryCause : Except String (Option Xml) → String
  | .error e => e
  | .ok none => "No scan result returned from nmap"
  | .ok (some _) => ""

/-- An open XML entry whose port number makes `int()` raise. -/
def xmlMalformedOpen (e : XmlPortEntry) : Bool :=
  e.state == some "open" && (xmlParsed? e).isNone

/-- The row an XML entry contributes when the loop reaches it and nothing
raises: open entries with a parseable port number. -/
def xmlRow? (e : XmlPortEntry) : Option PortObs :=
  if e.state == some "open" then
    (xmlParsed? e).map (fun p => ⟨p, e.protocol.getD "tcp", xmlServiceName e⟩)
  else none

/-- All rows of a report none of whose open entries is malformed. -/
def xmlRows (l : List XmlPortEntry) : List PortObs :=
  l.filterMap xmlRow?

/-- An open JSON entry whose port number makes `int()` raise. -/
def jsonMalformedOpen (e : JsonPortInfo) : Bool :=
  e.state == some "open" && (jsonParsed? e).isNone

/-- The row a JSON entry contributes when nothing raises. -/
def jsonRow? (e : JsonPortInfo) : Option PortObs :=
  if e.state == some "open" then
    (jsonParsed? e).map (fun p => ⟨p, e.protocol.getD "tcp", jsonServiceName e⟩)
  else none

/-- All rows of a JSON port list without malformed open entries. -/
def jsonRows (l : List JsonPortInfo) : List PortObs :=
  l.filterMap jsonRow?

/-! ## Concrete test vectors -/

def tsA : Timestamp := ⟨500, 1⟩

def tsB : Timestamp := ⟨500, 2⟩

def obsSsh : PortObs := ⟨22, "tcp", "ssh"⟩

def obsHttp : PortObs := ⟨80, "tcp", "http"⟩

/-- An open `<port>` element whose `portid` does not parse. -/
def badXmlEntry : XmlPortEntry :=
  { portid := some "abc", protocol := some "tcp", state := some "open",
    service := some (some "ssh") }

/-- A well-formed open `<port>` element for port 22. -/
def goodXmlEntry : XmlPortEntry :=
  { portid := some "22", protocol := some "tcp", state := some "open",
    service := some (some "ssh") }

/-- A well-formed open `<port>` element for port 80. -/
def goodXmlEntry2 : XmlPortEntry :=
  { portid := some "80", protocol := some "tcp", state := some "open",
    service := some (some "http") }

/-- An open JSON entry whose `portid` does not parse. -/
def badJsonEntry : JsonPortInfo :=
  { state := some "open", portid := some "x1", protocol := some "tcp",
    service := some (some "ssh") }

/-- A well-formed open JSON entry for port 80. -/
def goodJsonEntry : JsonPortInfo :=
  { state := some "open", portid := some "80", protocol := some "tcp",
    service := some (some "http") }

/-- A fallback report holding one open port for host 10.0.0.1. -/
def demoJson : JsonReport :=
  [("10.0.0.1", { ports := some [goodJsonEntry] })]

/-- A stored row for the same ip/port/protocol under a different identity. -/
def otherRow : Row :=
  { ip_address := "1.2.3.4", identity_key := "OTHERKEY", protocol := "tcp",
    port := 22, service := "ssh", timestamp := tsA }

def tgtA : Target := ⟨"1.2.3.4", "KEY"⟩

def tgtB : Target := ⟨"5.6.7.8", "KEY2"⟩

/-- A run in which every probe fails and the database is healthy. -/
def envDown : ScanEnv :=
  { primary := fun _ => .error "net down",
    fallback := fun _ => .error "net down",
    dbErr := fun _ => false,
    tsGen := fun _ => tsA }

/-- A run in which the probe finds port 22 open but every database write
raises. -/
def envDbFail : ScanEnv :=
  { primary := fun _ => .ok (some [goodXmlEntry]),
    fallback := fun _ => .error "unused",
    dbErr := fun _ => true,
    tsGen := fun _ => tsA }

/-- A healthy run: the probe finds port 22 open and the writes succeed. -/
def envOk : ScanEnv :=
  { primary := fun _ => .ok (some [goodXmlEntry]),
    fallback := fun _ => .error "unused",
    dbErr := fun _ => false,
    tsGen := fun _ => tsA }

/-! ## Helper lemmas -/

theorem insertBatch_eq_ok {store records : List Row}
    (h : insertCond store records) :
    insertBatch store records = .ok (store ++ records) := by
  unfold insertBatch
  rw [if_pos h]

theorem save_dbErr (open_ports : Option (List PortObs)) (idk ip : String)
    (store : List Row) (ts : Timestamp) (clean_old : Bool) :
    save_open_ports_to_db true open_ports idk ip store ts clean_old
      = (0, store) := by
  unfold save_open_ports_to_db
  split <;> simp_all

theorem save_eq_of_cond {obs : List PortObs} {idk ip : String}
    {store : List Row} {ts : Timestamp} (hne : obs ≠ [])
    (hc : insertCond (cleanupSameDay true ip idk ts.day store)
      (obs.map (mkRecord ip idk ts))) :
    save_open_ports_to_db false (some obs) idk ip store ts
      = (obs.length,
         cleanupSameDay true ip idk ts.day store ++ obs.map (mkRecord ip idk ts)) := by
  have hie : obs.isEmpty = false := by
    cases obs with
    | nil => exact absurd rfl hne
    | cons a l => rfl
  unfold save_open_ports_to_db
  simp [hie, insertBatch_eq_ok hc]

theorem length_filter_add_length_filter_not (p : α → Bool) (l : List α) :
    (l.filter p).length + (l.filter (fun a => !p a)).length = l.length := by
  induction l with
  | nil => rfl
  | cons a l ih =>
    cases h : p a <;> simp [List.filter_cons, h] <;> omega

theorem scan_single_fields (env : ScanEnv) (t : Target) (store : List Row)
    (ts : Timestamp) :
    (scan_single_ip_threaded env t store ts).1.ip_address = t.ip_address ∧
    (scan_single_ip_threaded env t store ts).1.identity_key = t.identity_key := by
  simp only [scan_single_ip_threaded]
  split
  · exact ⟨rfl, rfl⟩
  · split
    · exact ⟨rfl, rfl⟩
    · exact ⟨rfl, rfl⟩

theorem scanRun_map_key (env : ScanEnv) (l : List Target) (store : List Row)
    (i : Nat) :
    (scanRun env l store i).1.map (fun o => (o.ip_address, o.identity_key))
      = l.map (fun t => (t.ip_address, t.identity_key)) := by
  induction l generalizing store i with
  | nil => rfl
  | cons t rest ih =>
    have hf := scan_single_fields env t store (env.tsGen i)
    simp only [scanRun, List.map_cons]
    rw [hf.1, hf.2, ih]

theorem applyLimit_nil (limit : Option Int) :
    applyLimit limit ([] : List α) = [] := by
  cases limit with
  | none => rfl
  | some n =>
    unfold applyLimit pyListTrunc
    split
    · rfl
    · split <;> simp

theorem xmlCollect_clean :
    ∀ (l : List XmlPortEntry) (acc : List PortObs),
      (∀ e ∈ l, xmlMalformedOpen e = false) →
      xmlCollect l acc = acc ++ xmlRows l := by
  intro l
  induction l with
  | nil =>
    intro acc _
    simp [xmlCollect, xmlRows]
  | cons e rest ih =>
    intro acc h
    have he : xmlMalformedOpen e = false := h e (List.mem_cons_self e rest)
    have hrest : ∀ x ∈ rest, xmlMalformedOpen x = false :=
      fun x hx => h x (List.mem_cons_of_mem e hx)
    unfold xmlCollect
    cases hs : (e.state == some "open") with
    | false =>
      simp [hs, xmlRows, List.filterMap_cons, xmlRow?]
      exact ih acc hrest
    | true =>
      simp only [xmlMalformedOpen, hs, Bool.true_and] at he
      cases hp : xmlParsed? e with
      | none =>
        rw [hp] at he
        simp at he
      | some p =>
        simp only [hs, hp, if_true]
        rw [ih _ hrest]
        simp [xmlRows, List.filterMap_cons, xmlRow?, hs, hp]

theorem xmlCollect_abort (e : XmlPortEntry) (post : List XmlPortEntry)
    (he : xmlMalformedOpen e = true) :
    ∀ (pre : List XmlPortEntry) (acc : List PortObs),
      (∀ x ∈ pre, xmlMalformedOpen x = false) →
      xmlCollect (pre ++ e :: post) acc = acc ++ xmlRows pre := by
  intro pre
  induction pre with
  | nil =>
    intro acc _
    have hd := he
    simp only [xmlMalformedOpen, Bool.and_eq_true, Option.isNone_iff_eq_none] at hd
    simp [xmlCollect, hd.1, hd.2, xmlRows]
  | cons a rest ih =>
    intro acc h
    have ha : xmlMalformedOpen a = false := h a (List.mem_cons_self a rest)
    have hrest : ∀ x ∈ rest, xmlMalformedOpen x = false :=
      fun x hx => h x (List.mem_cons_of_mem a hx)
    rw [List.cons_append]
    unfold xmlCollect
    cases hs : (a.state == some "open") with
    | false =>
      simp [hs, xmlRows, List.filterMap_cons, xmlRow?]
      exact ih acc hrest
    | true =>
      simp only [xmlMalformedOpen, hs, Bool.true_and] at ha
      cases hp : xmlParsed? a with
      | none =>
        rw [hp] at ha
        simp at ha
      | some p =>
        simp only [hs, hp, if_true]
        rw [ih _ hrest]
        simp [xmlRows, List.filterMap_cons, xmlRow?, hs, hp]

theorem jsonCollect_clean :
    ∀ (l : List JsonPortInfo) (acc : List PortObs),
      (∀ e ∈ l, jsonMalformedOpen e = false) →
      jsonCollect l acc = acc ++ jsonRows l := by
  intro l
  induction l with
  | nil =>
    intro acc _
    simp [jsonCollect, jsonRows]
  | cons e rest ih =>
    intro acc h
    have he : jsonMalformedOpen e = false := h e (List.mem_cons_self e rest)
    have hrest : ∀ x ∈ rest, jsonMalformedOpen x = false :=
      fun x hx => h x (List.mem_cons_of_mem e hx)
    unfold jsonCollect
    cases hs : (e.state == some "open") with
    | false =>
      simp [hs, jsonRows, List.filterMap_cons, jsonRow?]
      exact ih acc hrest
    | true =>
      simp only [jsonMalformedOpen, hs, Bool.true_and] at he
      cases hp : jsonParsed? e with
      | none =>
        rw [hp] at he
        simp at he
      | some p =>
        simp only [hs, hp, if_true]
        rw [ih _ hrest]
        simp [jsonRows, List.filterMap_cons, jsonRow?, hs, hp]

theorem jsonCollect_abort (e : JsonPortInfo) (post : List JsonPortInfo)
    (he : jsonMalformedOpen e = true) :
    ∀ (pre : List JsonPortInfo) (acc : List PortObs),
      (∀ x ∈ pre, jsonMalformedOpen x = false) →
      jsonCollect (pre ++ e :: post) acc = acc ++ jsonRows pre := by
  intro pre
  induction pre with
  | nil =>
    intro acc _
    have hd := he
    simp only [jsonMalformedOpen, Bool.and_eq_true, Option.isNone_iff_eq_none] at hd
    simp [jsonCollect, hd.1, hd.2, jsonRows]
  | cons a rest ih =>
    intro acc h
    have ha : jsonMalformedOpen a = false := h a (List.mem_cons_self a rest)
    have hrest : ∀ x ∈ rest, jsonMalformedOpen x = false :=
      fun x hx => h x (List.mem_cons_of_mem a hx)
    rw [List.cons_append]
    unfold jsonCollect
    cases hs : (a.state == some "open") with
    | false =>
      simp [hs, jsonRows, List.filterMap_cons, jsonRow?]
      exact ih acc hrest
    | true =>
      simp only [jsonMalformedOpen, hs, Bool.true_and] at ha
      cases hp : jsonParsed? a with
      | none =>
        rw [hp] at ha
        simp at ha
      | some p =>
        simp only [hs, hp, if_true]
        rw [ih _ hrest]
        simp [jsonRows, List.filterMap_cons, jsonRow?, hs, hp]

theorem insertBatch_eq_error {store records : List Row}
    (h : ¬ insertCond store records) :
    insertBatch store records
      = .error "duplicate key value violates unique constraint" := by
  unfold insertBatch
  rw [if_neg h]

/-! ## Claim theorems -/

/-- C8: for every address and identity, calling `save_open_ports_to_db` with
an empty (or `None`) observation list returns 0, inserts no rows and
performs no same-day delete: the store comes back unchanged, and this is
the early-return path, not an error. -/
theorem c8_empty_observations_no_write (dbErr clean_old : Bool)
    (idk ip : String) (store : List Row) (ts : Timestamp) :
    save_open_ports_to_db dbErr none idk ip store ts clean_old = (0, store) ∧
    save_open_ports_to_db dbErr (some []) idk ip store ts clean_old = (0, store) :=
  ⟨rfl, rfl⟩

/-- C10: the port_scanner variant's `scan_single_ip_threaded` reports
`success = True` for every input; its `scan_ports` catches every probe
exception and returns `[]`, so a probing failure produces the same outcome
as any host whose report yields no open ports. -/
theorem c10_port_scanner_always_success
    (probe probe2 : Except String PortScanner.PSReport) (t : Target)
    (e : String) (h : PortScanner.scan_ports probe2 t.ip_address = []) :
    (PortScanner.scan_single_ip_threaded probe t).success = true ∧
    PortScanner.scan_ports (.error e) t.ip_address = [] ∧
    PortScanner.scan_single_ip_threaded (.error e) t
      = PortScanner.scan_single_ip_threaded probe2 t := by
  refine ⟨rfl, rfl, ?_⟩
  simp only [PortScanner.scan_single_ip_threaded]
  rw [h]
  rfl

theorem c10_witness :
    PortScanner.scan_ports (.ok []) tgtA.ip_address = [] ∧
    (PortScanner.scan_single_ip_threaded (.error "nmap crashed") tgtA).success
      = true ∧
    PortScanner.scan_single_ip_threaded (.error "nmap crashed") tgtA
      = PortScanner.scan_single_ip_threaded (.ok []) tgtA :=
  ⟨by decide,
   (c10_port_scanner_always_success (.error "nmap crashed") (.ok []) tgtA
     "nmap crashed" (by decide)).1,
   (c10_port_scanner_always_success (.error "nmap crashed") (.ok []) tgtA
     "nmap crashed" (by decide)).2.2⟩

/-- C2 counterexample: `INSERT_OPEN_PORTS_QUERY` has no ON CONFLICT clause,
so a record colliding with a stored row on the uniqueness key
(ip_address, port, protocol, timestamp) raises instead of updating; the
enclosing handler rolls the write back and returns 0, leaving the stored
row's service ("ssh") and identity ("OTHERKEY") untouched. -/
theorem c2_counterexample :
    insertBatch [otherRow] [mkRecord "1.2.3.4" "KEY" tsA ⟨22, "tcp", "telnet"⟩]
      = .error "duplicate key value violates unique constraint" ∧
    save_open_ports_to_db false (some [⟨22, "tcp", "telnet"⟩]) "KEY" "1.2.3.4"
      [otherRow] tsA = (0, [otherRow]) := by
  constructor
  · rfl
  · rfl

/-- C2 amended: an insert colliding on the uniqueness key
(ip_address, port, protocol, timestamp) raises a uniqueness violation, which
`save_open_ports_to_db` catches: the whole write is rolled back and 0 is
returned; no stored field is updated. -/
theorem c2_conflict_rollback_amended (dbErr : Bool) (obs : List PortObs)
    (idk ip : String) (store : List Row) (ts : Timestamp) (clean_old : Bool)
    (h : ¬ insertCond (cleanupSameDay clean_old ip idk ts.day store)
      (obs.map (mkRecord ip idk ts))) :
    save_open_ports_to_db dbErr (some obs) idk ip store ts clean_old
      = (0, store) := by
  unfold save_open_ports_to_db
  simp only [Option.getD_some]
  split
  · rfl
  · cases dbErr with
    | true => simp
    | false => simp [insertBatch_eq_error h]

theorem c2_witness :
    ¬ insertCond (cleanupSameDay true "1.2.3.4" "KEY" tsA.day [otherRow])
      ([⟨22, "tcp", "telnet"⟩].map (mkRecord "1.2.3.4" "KEY" tsA)) ∧
    save_open_ports_to_db false (some [⟨22, "tcp", "telnet"⟩]) "KEY" "1.2.3.4"
      [otherRow] tsA true = (0, [otherRow]) :=
  ⟨by decide,
   c2_conflict_rollback_amended false [⟨22, "tcp", "telnet"⟩] "KEY" "1.2.3.4"
     [otherRow] tsA true (by decide)⟩

/-- C9 counterexample: a provided limit of 0 is falsy in Python, so
`if limit:` skips the truncation entirely and all targets are scanned,
not the first 0 of them. -/
theorem c9_counterexample :
    (scan_all_ips_multithreaded envDown (some 0) [tgtA] []).1.length = 1 ∧
    ¬ (scan_all_ips_multithreaded envDown (some 0) [tgtA] []).1.length
        = ([tgtA].take 0).length := by
  constructor
  · rfl
  · decide

/-- C9 amended: for every provided positive limit n, the run equals a run
over exactly the first n targets in retrieval order (truncation happens
before scanning, so dropped targets never reach the probe); a limit of 0
(like None) leaves the list untruncated. -/
theorem c9_limit_truncates_amended (env : ScanEnv) (n : Int)
    (targets : List Target) (store : List Row) (h : 0 < n) :
    scan_all_ips_multithreaded env (some n) targets store
      = scan_all_ips_multithreaded env none (targets.take n.toNat) store := by
  unfold scan_all_ips_multithreaded
  cases targets with
  | nil => simp
  | cons t rest =>
    have hn : n ≠ 0 := by omega
    have hnn : 0 ≤ n := le_of_lt h
    have hnt : n.toNat ≠ 0 := by omega
    simp only [applyLimit, pyListTrunc, if_neg hn, if_pos hnn]
    cases hm : n.toNat with
    | zero => exact absurd hm hnt
    | succ m => simp [hm, List.take_succ_cons]

theorem c9_witness :
    (0 : Int) < 1 ∧
    scan_all_ips_multithreaded envDown (some 1) [tgtA, tgtB] []
      = scan_all_ips_multithreaded envDown none ([tgtA, tgtB].take (1 : Int).toNat) [] :=
  ⟨by decide, c9_limit_truncates_amended envDown 1 [tgtA, tgtB] [] (by decide)⟩

/-- C3 counterexample: the probe finds port 22 open but every database write
raises (`envDbFail`); the outcome still carries `scan_success = true` — the
host is counted as a completed scan, not marked failed — and `error = none`:
the persistence error was swallowed inside `save_open_ports_to_db`
(which returned 0), not propagated to the caller. -/
theorem c3_counterexample :
    (scan_single_ip_threaded envDbFail tgtA [] tsA).1.scan_success = true ∧
    (scan_single_ip_threaded envDbFail tgtA [] tsA).1.error = none ∧
    (scan_single_ip_threaded envDbFail tgtA [] tsA).1.ports_saved = 0 := by
  decide

/-- C3 amended: when the batch delete or insert raises, the transaction is
rolled back atomically — the store is returned unchanged, so no partial
rows for that host persist and other hosts' writes are untouched — and the
host's saved count is 0; but the error is swallowed by
`save_open_ports_to_db` (which returns 0 instead of raising), so the
outcome's success flag still equals the probe's success flag and, whenever
the probe succeeded, the outcome carries no error at all. -/
theorem c3_db_failure_swallowed_amended (env : ScanEnv) (t : Target)
    (store : List Row) (ts : Timestamp) (h : env.dbErr t.ip_address = true) :
    (scan_single_ip_threaded env t store ts).2 = store ∧
    (scan_single_ip_threaded env t store ts).1.ports_saved = 0 ∧
    (scan_single_ip_threaded env t store ts).1.scan_success
      = (scan_ports (env.primary t.ip_address) (env.fallback t.ip_address)
          t.ip_address).success ∧
    ((scan_ports (env.primary t.ip_address) (env.fallback t.ip_address)
        t.ip_address).success = true →
      (scan_single_ip_threaded env t store ts).1.error = none) := by
  cases hb : (scan_ports (env.primary t.ip_address) (env.fallback t.ip_address)
      t.ip_address).success with
  | false => simp [scan_single_ip_threaded, hb]
  | true =>
    simp only [scan_single_ip_threaded, hb, h, Bool.not_true, Bool.false_eq_true,
      if_false]
    split
    · simp
    · rw [save_dbErr]
      simp

theorem c3_witness :
    envDbFail.dbErr tgtA.ip_address = true ∧
    (scan_single_ip_threaded envDbFail tgtA [otherRow] tsA).2 = [otherRow] ∧
    (scan_single_ip_threaded envDbFail tgtA [otherRow] tsA).1.ports_saved = 0 :=
  ⟨rfl,
   (c3_db_failure_swallowed_amended envDbFail tgtA [otherRow] tsA rfl).1,
   (c3_db_failure_swallowed_amended envDbFail tgtA [otherRow] tsA rfl).2.1⟩

/-- C6 counterexample: the `try` of `get_open_ports_from_xml` wraps the whole
entry loop, so the open entry with unparseable port "abc" aborts parsing and
the later well-formed entry for port 22 is dropped — the report normalizes
to `[]`, not to the claim's "all other well-formed entries". -/
theorem c6_counterexample :
    get_open_ports_from_xml [badXmlEntry, goodXmlEntry] "1.2.3.4" = [] ∧
    get_open_ports_from_xml [goodXmlEntry] "1.2.3.4" = [obsSsh] ∧
    ¬ get_open_ports_from_xml [badXmlEntry, goodXmlEntry] "1.2.3.4" = [obsSsh] := by
  refine ⟨rfl, rfl, ?_⟩
  decide

/-- C6 amended: in both normalizers, a report none of whose open entries has
a malformed port number yields exactly its well-formed open rows; a
malformed open entry is caught (never fatal) but ends the loop: the rows
collected before it are returned and every later entry is dropped.  There
is no [0, 65535] range check — any string `int()` accepts is taken. -/
theorem c6_malformed_entry_aborts_amended
    (l pre post : List XmlPortEntry) (e : XmlPortEntry)
    (jl jpre jpost : List JsonPortInfo) (je : JsonPortInfo) (ip : String)
    (hl : ∀ x ∈ l, xmlMalformedOpen x = false)
    (hpre : ∀ x ∈ pre, xmlMalformedOpen x = false)
    (he : xmlMalformedOpen e = true)
    (hjl : ∀ x ∈ jl, jsonMalformedOpen x = false)
    (hjpre : ∀ x ∈ jpre, jsonMalformedOpen x = false)
    (hje : jsonMalformedOpen je = true) :
    get_open_ports_from_xml l ip = xmlRows l ∧
    get_open_ports_from_xml (pre ++ e :: post) ip = xmlRows pre ∧
    get_open_ports_from_json [(ip, { ports := some jl })] ip = jsonRows jl ∧
    get_open_ports_from_json [(ip, { ports := some (jpre ++ je :: jpost) })] ip
      = jsonRows jpre := by
  refine ⟨?_, ?_, ?_, ?_⟩
  · simpa using xmlCollect_clean l [] hl
  · simpa using xmlCollect_abort e post he pre [] hpre
  · simp only [get_open_ports_from_json, List.lookup]
    simpa using jsonCollect_clean jl [] hjl
  · simp only [get_open_ports_from_json, List.lookup]
    simpa using jsonCollect_abort je jpost hje jpre [] hjpre

theorem c6_witness :
    (∀ x ∈ [goodXmlEntry], xmlMalformedOpen x = false) ∧
    xmlMalformedOpen badXmlEntry = true ∧
    (∀ x ∈ [goodJsonEntry], jsonMalformedOpen x = false) ∧
    jsonMalformedOpen badJsonEntry = true ∧
    get_open_ports_from_xml [goodXmlEntry] "1.2.3.4" = xmlRows [goodXmlEntry] ∧
    get_open_ports_from_xml ([goodXmlEntry] ++ badXmlEntry :: [goodXmlEntry2])
      "1.2.3.4" = xmlRows [goodXmlEntry] ∧
    get_open_ports_from_json [("1.2.3.4", { ports := some ([goodJsonEntry] ++ badJsonEntry :: []) })]
      "1.2.3.4" = jsonRows [goodJsonEntry] :=
  ⟨by decide, by decide, by decide, by decide,
   (c6_malformed_entry_aborts_amended [goodXmlEntry] [goodXmlEntry] [goodXmlEntry2]
     badXmlEntry [goodJsonEntry] [goodJsonEntry] [] badJsonEntry "1.2.3.4"
     (by decide) (by decide) (by decide) (by decide) (by decide) (by decide)).1,
   (c6_malformed_entry_aborts_amended [goodXmlEntry] [goodXmlEntry] [goodXmlEntry2]
     badXmlEntry [goodJsonEntry] [goodJsonEntry] [] badJsonEntry "1.2.3.4"
     (by decide) (by decide) (by decide) (by decide) (by decide) (by decide)).2.1,
   (c6_malformed_entry_aborts_amended [goodXmlEntry] [goodXmlEntry] [goodXmlEntry2]
     badXmlEntry [goodJsonEntry] [goodJsonEntry] [] badJsonEntry "1.2.3.4"
     (by decide) (by decide) (by decide) (by decide) (by decide) (by decide)).2.2.2⟩

/-- C4: when the primary probe fails (a raise, or a `None` report),
`scan_ports` consults the fallback — structurally exactly once, with no
further retry: the result is fully determined by that single fallback
outcome.  A fallback report with data for the address gives a success
carrying the fallback's ports; a raising fallback, or one without data for
the address, gives a failure value whose message carries both the primary
and the fallback cause. -/
theorem c4_fallback_strategy (primary : Except String (Option Xml))
    (fallback : Except String JsonReport) (ip : String)
    (hp : primaryFails primary = true) :
    (∀ j, fallback = .ok j → fallbackHasData ip j = true →
      scan_ports primary fallback ip
        = { success := true, ip_address := ip, xml_data := none,
            json_data := some j, error := none } ∧
      get_open_ports_from_scan (scan_ports primary fallback ip) ip
        = get_open_ports_from_json j ip) ∧
    (∀ fe, fallback = .error fe →
      scan_ports primary fallback ip
        = { success := false, ip_address := ip, xml_data := none,
            json_data := none,
            error := some (bothFailedMsg ip (primaryCause primary) fe) }) ∧
    (∀ j, fallback = .ok j → fallbackHasData ip j = false →
      scan_ports primary fallback ip
        = { success := false, ip_address := ip, xml_data := none,
            json_data := none,
            error := some (bothFailedMsg ip (primaryCause primary)
              "No data returned from fallback scan") }) := by
  have hsf : scan_ports primary fallback ip
      = scanFallback fallback ip (primaryCause primary) := by
    cases primary with
    | error e => rfl
    | ok x =>
      cases x with
      | none => rfl
      | some xml => simp [primaryFails] at hp
  refine ⟨?_, ?_, ?_⟩
  · intro j hj hd
    subst hj
    have hne : (!j.isEmpty) = true := by
      have hd2 := hd
      unfold fallbackHasData at hd2
      exact ((Bool.and_eq_true _ _).mp hd2).1
    have hres : scan_ports primary (.ok j) ip
        = { success := true, ip_address := ip, xml_data := none,
            json_data := some j, error := none } := by
      rw [hsf]
      simp [scanFallback, hd]
    refine ⟨hres, ?_⟩
    rw [hres]
    simp [get_open_ports_from_scan, xmlTruthy, jsonTruthy, hne]
  · intro fe hf
    subst hf
    rw [hsf]
    rfl
  · intro j hj hd
    subst hj
    rw [hsf]
    simp [scanFallback, hd]

theorem c4_witness :
    primaryFails (.error "primary timeout") = true ∧
    fallbackHasData "10.0.0.1" demoJson = true ∧
    scan_ports (.error "primary timeout") (.ok demoJson) "10.0.0.1"
      = { success := true, ip_address := "10.0.0.1", xml_data := none,
          json_data := some demoJson, error := none } ∧
    get_open_ports_from_scan
      (scan_ports (.error "primary timeout") (.ok demoJson) "10.0.0.1")
      "10.0.0.1" = get_open_ports_from_json demoJson "10.0.0.1" ∧
    scan_ports (.error "pe") (.error "fe") "10.0.0.1"
      = { success := false, ip_address := "10.0.0.1", xml_data := none,
          json_data := none,
          error := some (bothFailedMsg "10.0.0.1"
            (primaryCause (.error "pe")) "fe") } :=
  ⟨rfl, by decide,
   ((c4_fallback_strategy (.error "primary timeout") (.ok demoJson) "10.0.0.1"
     rfl).1 demoJson rfl (by decide)).1,
   ((c4_fallback_strategy (.error "primary timeout") (.ok demoJson) "10.0.0.1"
     rfl).1 demoJson rfl (by decide)).2,
   (c4_fallback_strategy (.error "pe") (.error "fe") "10.0.0.1" rfl).2.1 "fe" rfl⟩

/-- C7 counterexample: the primary probe raises and the fallback call
completes with a report that does not contain the scanned address;
`scan_ports` reports failure (with the combined error message), not a
successful outcome with an empty observation list. -/
theorem c7_counterexample :
    (scan_ports (.error "primary timeout") (.ok []) "10.0.0.1").success
      = false ∧
    (scan_ports (.error "primary timeout") (.ok []) "10.0.0.1").error
      = some (bothFailedMsg "10.0.0.1" "primary timeout"
          "No data returned from fallback scan") := by
  constructor <;> rfl

/-- C7 amended: an address absent from a completed PRIMARY probe's report
(an XML report carrying no port entries) yields a successful outcome with an
empty observation list, and the port_scanner variant likewise returns `[]`
for an address absent from its report; but when the absence occurs in the
FALLBACK report after a failed primary, the whole scan is reported failed. -/
theorem c7_absent_address_amended (ip e : String)
    (fallback : Except String JsonReport) (j : JsonReport)
    (rep : PortScanner.PSReport)
    (hj : j.lookup ip = none) (hrep : rep.lookup ip = none) :
    (scan_ports (.ok (some [])) fallback ip).success = true ∧
    get_open_ports_from_scan (scan_ports (.ok (some [])) fallback ip) ip = [] ∧
    PortScanner.scan_ports (.ok rep) ip = [] ∧
    (scan_ports (.error e) (.ok j) ip).success = false := by
  refine ⟨rfl, rfl, ?_, ?_⟩
  · simp [PortScanner.scan_ports, hrep]
  · have hnd : fallbackHasData ip j = false := by
      unfold fallbackHasData
      rw [hj]
      simp
    simp [scan_ports, scanFallback, hnd]

theorem c7_witness :
    ([] : JsonReport).lookup "10.0.0.1" = none ∧
    ([] : PortScanner.PSReport).lookup "10.0.0.1" = none ∧
    (scan_ports (.ok (some [])) (.error "unused") "10.0.0.1").success = true ∧
    get_open_ports_from_scan
      (scan_ports (.ok (some [])) (.error "unused") "10.0.0.1") "10.0.0.1"
      = [] ∧
    PortScanner.scan_ports (.ok []) "10.0.0.1" = [] ∧
    (scan_ports (.error "boom") (.ok []) "10.0.0.1").success = false :=
  ⟨rfl, rfl,
   (c7_absent_address_amended "10.0.0.1" "boom" (.error "unused") [] []
     rfl rfl).1,
   (c7_absent_address_amended "10.0.0.1" "boom" (.error "unused") [] []
     rfl rfl).2.1,
   (c7_absent_address_amended "10.0.0.1" "boom" (.error "unused") [] []
     rfl rfl).2.2.1,
   (c7_absent_address_amended "10.0.0.1" "boom" (.error "unused") [] []
     rfl rfl).2.2.2⟩

/-- C5: for every run and every completion order of the pool, every
submitted target (the retrieved list after the limit step) yields exactly
one outcome: completed plus failed outcomes together count the submitted
targets exactly, and the multiset of (address, identity) keys of the
outcomes is exactly the multiset of submitted targets' keys — no drops, no
duplicates, and one target's failure removes no other outcome. -/
theorem c5_one_outcome_per_target (env : ScanEnv) (limit : Option Int)
    (targets : List Target) (store : List Row) (outcomes : List Outcome)
    (hperm : outcomes.Perm
      (scan_all_ips_multithreaded env limit targets store).1) :
    (completedScans outcomes).length + (failedScans outcomes).length
      = (applyLimit limit targets).length ∧
    (outcomes.map (fun o => (o.ip_address, o.identity_key))).Perm
      ((applyLimit limit targets).map
        (fun t => (t.ip_address, t.identity_key))) := by
  have hkey : (scan_all_ips_multithreaded env limit targets store).1.map
      (fun o => (o.ip_address, o.identity_key))
      = (applyLimit limit targets).map
        (fun t => (t.ip_address, t.identity_key)) := by
    unfold scan_all_ips_multithreaded
    cases targets with
    | nil => simp [applyLimit_nil]
    | cons t rest =>
      simp only [List.isEmpty_cons, Bool.false_eq_true, if_false]
      exact scanRun_map_key env (applyLimit limit (t :: rest)) store 0
  have hmap : (outcomes.map (fun o => (o.ip_address, o.identity_key))).Perm
      ((applyLimit limit targets).map
        (fun t => (t.ip_address, t.identity_key))) := by
    rw [← hkey]
    exact hperm.map _
  refine ⟨?_, hmap⟩
  have h1 := length_filter_add_length_filter_not
    (fun o => o.scan_success) outcomes
  have h2 : outcomes.length = (applyLimit limit targets).length := by
    have h3 := hmap.length_eq
    simpa using h3
  simp only [completedScans, failedScans]
  omega

theorem c5_witness :
    ((scan_all_ips_multithreaded envDown none [tgtA] []).1).Perm
      (scan_all_ips_multithreaded envDown none [tgtA] []).1 ∧
    (completedScans (scan_all_ips_multithreaded envDown none [tgtA] []).1).length
      + (failedScans (scan_all_ips_multithreaded envDown none [tgtA] []).1).length
      = (applyLimit none [tgtA]).length :=
  ⟨List.Perm.refl _,
   (c5_one_outcome_per_target envDown none [tgtA] [] _ (List.Perm.refl _)).1⟩

theorem cleanup_true (ip idk : String) (d : Nat) (l : List Row) :
    cleanupSameDay true ip idk d l
      = l.filter (fun r => !matchesDay ip idk d r) := rfl

theorem records_rowKey_nodup (ip idk : String) (ts : Timestamp)
    {obs : List PortObs}
    (hkeys : (obs.map (fun o => (o.port, o.protocol))).Nodup) :
    ((obs.map (mkRecord ip idk ts)).map rowKey).Nodup := by
  rw [List.map_map]
  have he : (rowKey ∘ mkRecord ip idk ts)
      = (fun x : Int × String => (ip, x.1, x.2, ts))
        ∘ (fun o : PortObs => (o.port, o.protocol)) := rfl
  rw [he, ← List.map_map]
  refine hkeys.map ?_
  intro a b hab
  simp [Prod.ext_iff] at hab
  exact Prod.ext hab.1 hab.2

theorem records_timestamp (ip idk : String) (ts : Timestamp)
    (obs : List PortObs) :
    ∀ r ∈ obs.map (mkRecord ip idk ts), r.timestamp = ts := by
  intro r hr
  obtain ⟨o, _, rfl⟩ := List.mem_map.1 hr
  rfl

theorem insertCond_fresh {base records : List Row} {ts : Timestamp}
    (hk : (records.map rowKey).Nodup)
    (hts : ∀ r ∈ records, r.timestamp = ts)
    (hb : ∀ s ∈ base, s.timestamp ≠ ts) :
    insertCond base records := by
  refine ⟨hk, ?_⟩
  intro r hr s hs hkey
  have h1 : r.timestamp = s.timestamp := congrArg (fun k => k.2.2.2) hkey
  exact hb s hs (h1 ▸ hts r hr)

theorem mem_cleanup {clean_old : Bool} {ip idk : String} {d : Nat}
    {store : List Row} {s : Row}
    (hs : s ∈ cleanupSameDay clean_old ip idk d store) : s ∈ store := by
  unfold cleanupSameDay at hs
  split at hs
  · exact (List.mem_filter.1 hs).1
  · exact hs

theorem matchesDay_mkRecord (ip idk : String) (d : Nat) (ts : Timestamp)
    (o : PortObs) :
    matchesDay ip idk d (mkRecord ip idk ts o) = (ts.day == d) := by
  simp [matchesDay, mkRecord]

/-- C1 counterexample: a non-empty observation list that repeats the same
(port, protocol) makes the batch insert of each call violate the unique key
(the two rows share ip_address, port, protocol and the call's single
timestamp), so both writes roll back and the day holds no rows at all —
not the rows of the second call. -/
theorem c1_counterexample :
    ¬ ((save_open_ports_to_db false (some [obsSsh, obsSsh]) "KEY" "1.2.3.4"
        (save_open_ports_to_db false (some [obsSsh, obsSsh]) "KEY" "1.2.3.4"
          [] tsA).2 tsB).2.filter (matchesDay "1.2.3.4" "KEY" tsB.day)
      = [obsSsh, obsSsh].map (mkRecord "1.2.3.4" "KEY" tsB)) := by
  decide

/-- C1 amended: for every address, identity and non-empty observation list
whose entries are pairwise distinct on (port, protocol), two same-day calls
of the Snapshot Writer (with fresh `datetime.now()` timestamps not already
present in the store) leave, restricted to that (address, identity) pair
and that day, exactly the rows of the second call: the same-day delete runs
before the insert, so no row of the first call survives (when the
timestamps differ) and no duplicate rows exist. -/
theorem c1_same_day_supersede_amended (ip idk : String) (obs : List PortObs)
    (store : List Row) (ts1 ts2 : Timestamp)
    (hne : obs ≠ [])
    (hkeys : (obs.map (fun o => (o.port, o.protocol))).Nodup)
    (hfresh : ∀ r ∈ store, r.timestamp ≠ ts1 ∧ r.timestamp ≠ ts2)
    (hday : ts1.day = ts2.day) :
    ((save_open_ports_to_db false (some obs) idk ip
        (save_open_ports_to_db false (some obs) idk ip store ts1).2 ts2).2.filter
      (matchesDay ip idk ts2.day)) = obs.map (mkRecord ip idk ts2) ∧
    (obs.map (mkRecord ip idk ts2)).Nodup ∧
    (ts1 ≠ ts2 → ∀ r ∈ (save_open_ports_to_db false (some obs) idk ip
        (save_open_ports_to_db false (some obs) idk ip store ts1).2 ts2).2,
      r.timestamp ≠ ts1) := by
  have cond1 : insertCond (cleanupSameDay true ip idk ts1.day store)
      (obs.map (mkRecord ip idk ts1)) :=
    insertCond_fresh (records_rowKey_nodup ip idk ts1 hkeys)
      (records_timestamp ip idk ts1 obs)
      (fun s hs => (hfresh s (mem_cleanup hs)).1)
  have h1 : (save_open_ports_to_db false (some obs) idk ip store ts1).2
      = cleanupSameDay true ip idk ts1.day store
        ++ obs.map (mkRecord ip idk ts1) := by
    rw [save_eq_of_cond hne cond1]
  rw [h1]
  have hstep : cleanupSameDay true ip idk ts2.day
      (cleanupSameDay true ip idk ts1.day store
        ++ obs.map (mkRecord ip idk ts1))
      = cleanupSameDay true ip idk ts1.day store := by
    simp only [cleanup_true]
    rw [List.filter_append]
    have e1 : ((store.filter (fun r => !matchesDay ip idk ts1.day r)).filter
        (fun r => !matchesDay ip idk ts2.day r))
        = store.filter (fun r => !matchesDay ip idk ts1.day r) := by
      apply List.filter_eq_self.mpr
      intro a ha
      have hm := (List.mem_filter.1 ha).2
      rw [← hday]
      exact hm
    have e2 : ((obs.map (mkRecord ip idk ts1)).filter
        (fun r => !matchesDay ip idk ts2.day r)) = [] := by
      apply List.filter_eq_nil_iff.mpr
      intro r hr
      obtain ⟨o, _, rfl⟩ := List.mem_map.1 hr
      simp [matchesDay_mkRecord, hday]
    rw [e1, e2, List.append_nil]
  have cond2 : insertCond (cleanupSameDay true ip idk ts1.day store)
      (obs.map (mkRecord ip idk ts2)) :=
    insertCond_fresh (records_rowKey_nodup ip idk ts2 hkeys)
      (records_timestamp ip idk ts2 obs)
      (fun s hs => (hfresh s (mem_cleanup hs)).2)
  have h2 : save_open_ports_to_db false (some obs) idk ip
      (cleanupSameDay true ip idk ts1.day store
        ++ obs.map (mkRecord ip idk ts1)) ts2
      = (obs.length, cleanupSameDay true ip idk ts1.day store
          ++ obs.map (mkRecord ip idk ts2)) := by
    have hc : insertCond (cleanupSameDay true ip idk ts2.day
        (cleanupSameDay true ip idk ts1.day store
          ++ obs.map (mkRecord ip idk ts1))) (obs.map (mkRecord ip idk ts2)) := by
      rw [hstep]
      exact cond2
    rw [save_eq_of_cond hne hc, hstep]
  rw [h2]
  refine ⟨?_, ?_, ?_⟩
  · rw [cleanup_true, List.filter_append]
    have e3 : ((store.filter (fun r => !matchesDay ip idk ts1.day r)).filter
        (matchesDay ip idk ts2.day)) = [] := by
      apply List.filter_eq_nil_iff.mpr
      intro a ha
      have hm := (List.mem_filter.1 ha).2
      simp only [Bool.not_eq_true'] at hm
      rw [← hday]
      simp [hm]
    have e4 : ((obs.map (mkRecord ip idk ts2)).filter
        (matchesDay ip idk ts2.day)) = obs.map (mkRecord ip idk ts2) := by
      apply List.filter_eq_self.mpr
      intro r hr
      obtain ⟨o, _, rfl⟩ := List.mem_map.1 hr
      simp [matchesDay_mkRecord]
    rw [e3, e4, List.nil_append]
  · exact List.Nodup.of_map rowKey (records_rowKey_nodup ip idk ts2 hkeys)
  · intro h12 r hr
    rcases List.mem_append.1 hr with hC | hR
    · exact (hfresh r (mem_cleanup hC)).1
    · rw [records_timestamp ip idk ts2 obs r hR]
      exact fun hEq => h12 hEq.symm

theorem c1_witness :
    ([obsSsh, obsHttp] ≠ ([] : List PortObs)) ∧
    (([obsSsh, obsHttp].map (fun o => (o.port, o.protocol))).Nodup) ∧
    tsA.day = tsB.day ∧
    ((save_open_ports_to_db false (some [obsSsh, obsHttp]) "KEY" "1.2.3.4"
        (save_open_ports_to_db false (some [obsSsh, obsHttp]) "KEY" "1.2.3.4"
          [] tsA).2 tsB).2.filter (matchesDay "1.2.3.4" "KEY" tsB.day))
      = [obsSsh, obsHttp].map (mkRecord "1.2.3.4" "KEY" tsB) :=
  ⟨by decide, by decide, rfl,
   (c1_same_day_supersede_amended "1.2.3.4" "KEY" [obsSsh, obsHttp] [] tsA tsB
     (by decide) (by decide) (by decide) rfl).1⟩

end NetSec


